import Mathlib

/-!
Verification development for the chess.com-analytics repository.

The repository contains several Python scripts that fetch a player's games
from the Chess.com public API and aggregate per-game results.  This file
gives a shallow embedding of the pure core of those scripts:

* `game_analysis.py`        — `analyze_game_result`, `extract_first_three_moves`,
                              `get_last_50_games`, the win/loss/draw tally of
                              `analyze_games`;
* `chess_analytics.py`      — `analyze_game_performance`;
* `advanced_game_analysis.py` (and its `_fixed` variant, whose
  `analyze_game` / `classify_opening` / `extract_opening_moves` bodies are
  textually identical) — `analyze_game`, `classify_opening`,
  `extract_opening_moves`, the sort/truncate merge step of
  `get_recent_games`, the date filter, and the rating statistics of
  `analyze_user_games`.

Python strings are modelled as `List Char` (with `String` wrappers at the
boundary), epoch timestamps as `Int` seconds, `datetime` instants as `Int`
microseconds.  Dictionary fields accessed with `dict.get(key, default)` are
modelled as `Option` fields combined with `Option.getD`.
-/

set_option maxRecDepth 8000

/-! ## Python string primitives -/

/-- Python whitespace characters recognised by `str.strip` / `\s`
(space, tab, newline, carriage return, vertical tab, form feed). -/
def isPySpace (c : Char) : Bool :=
  c == ' ' || c == '\t' || c == '\n' || c == '\r' || c == '\x0b' || c == '\x0c'

/-- ASCII decimal digit, the characters matched by `\d` on the inputs in play. -/
def isDigitCh (c : Char) : Bool :=
  '0' ≤ c && c ≤ '9'

/-- Python word character (`\w`): letter, digit or underscore (ASCII inputs). -/
def isWordCh (c : Char) : Bool :=
  c.isAlpha || isDigitCh c || c == '_'

/-- Python `str.lower` on the character list (ASCII case mapping). -/
def pyLowerCs (cs : List Char) : List Char :=
  cs.map Char.toLower

/-- Python `str.lower`. -/
def pyLower (s : String) : String :=
  ⟨pyLowerCs s.data⟩

/-- Python substring membership `needle in hay`. -/
def containsSub (needle : List Char) : List Char → Bool
  | [] => needle.isEmpty
  | c :: rest => needle.isPrefixOf (c :: rest) || containsSub needle rest

/-- Python `str.strip()`: drop whitespace from both ends. -/
def pyStrip (cs : List Char) : List Char :=
  ((cs.dropWhile isPySpace).reverse.dropWhile isPySpace).reverse

/-- Python slice `l[-n:]`: the last `n` elements (the whole list when shorter). -/
def pyLastN (n : Nat) (l : List α) : List α :=
  l.drop (l.length - n)

/-! ## Data model

A raw Chess.com API game record (spec `RawGame`): two sides plus the
metadata fields the analysed scripts read.  Fields read through
`dict.get(key, default)` in the source are `Option`s here. -/

structure Side where
  username : String
  rating : Option Int
  result : Option String
deriving DecidableEq

structure RawGame where
  white : Side
  black : Side
  end_time : Option Int
  time_control : Option String
  rated : Bool
  rules : Option String
  uuid : Option String
  pgn : Option String
  url : Option String
deriving DecidableEq

/-- Build a game record from the fields the claims exercise; the remaining
metadata fields are absent, matching a minimal API record. -/
def mkGame (w b : Side) (t : Option Int) : RawGame :=
  ⟨w, b, t, none, false, none, none, none, none⟩

namespace GameAnalysis

/-!  Embedding of `src/game_analysis.py`. -/

/-- The result-token table inlined in `analyze_game_result`
(`game_analysis.py` lines 141-151): `"win"` → `"Win"`, the four loss tokens
→ `"Loss"`, the four draw tokens → `"Draw"`, anything else → `"Unknown"`. -/
def classifyToken (user_result : String) : String :=
  if user_result == "win" then "Win"
  else if user_result == "checkmated" || user_result == "resigned" ||
          user_result == "timeout" || user_result == "abandoned" then "Loss"
  else if user_result == "agreed" || user_result == "repetition" ||
          user_result == "stalemate" || user_result == "insufficient" then "Draw"
  else "Unknown"

/-- `analyze_game_result(game, username)` (`game_analysis.py` lines 111-151).
Returns `(result, user_color, user_rating, opponent_rating, opponent_name)`;
the Python `"N/A"` rating/name sentinels of the no-match branch are `none`. -/
def analyze_game_result (game : RawGame) (username : String) :
    String × String × Option Int × Option Int × Option String :=
  let white_player := pyLower game.white.username
  let black_player := pyLower game.black.username
  let username_lower := pyLower username
  if username_lower == white_player then
    (classifyToken ((game.white.result).getD "unknown"), "white",
      game.white.rating, game.black.rating, some game.black.username)
  else if username_lower == black_player then
    (classifyToken ((game.black.result).getD "unknown"), "black",
      game.black.rating, game.white.rating, some game.white.username)
  else
    ("unknown", "unknown", none, none, none)

/-- The win/loss/draw counters of `analyze_games` (`game_analysis.py`
lines 214-227): iterate over `games[-50:]` and bump the counter selected by
`analyze_game_result`; results outside Win/Loss/Draw bump nothing. -/
def analyze_games_counts (games : List RawGame) (username : String) :
    Nat × Nat × Nat :=
  (pyLastN 50 games).foldl
    (fun acc game =>
      let r := (analyze_game_result game username).1
      if r == "Win" then (acc.1 + 1, acc.2.1, acc.2.2)
      else if r == "Loss" then (acc.1, acc.2.1 + 1, acc.2.2)
      else if r == "Draw" then (acc.1, acc.2.1, acc.2.2 + 1)
      else acc)
    (0, 0, 0)

/-- `total_games = wins + losses + draws` (`game_analysis.py` line 248). -/
def analyze_games_total (games : List RawGame) (username : String) : Nat :=
  let c := analyze_games_counts games username
  c.1 + c.2.1 + c.2.2

/-- The per-game result sequence `analyze_games` iterates over (the `result`
column of its table, one entry per game of `games[-50:]`). -/
def analyze_games_results (games : List RawGame) (username : String) :
    List String :=
  (pyLastN 50 games).map (fun g => (analyze_game_result g username).1)

/-- The month-accumulation loop of `get_last_50_games` (`game_analysis.py`
lines 32-50): batches arrive most-recent month first; each batch is appended
and the loop stops once at least 50 games have accumulated.  A failed fetch
contributes an empty batch (the `except: continue`). -/
def accumulateMonths : List (List RawGame) → List RawGame → List RawGame
  | [], games => games
  | batch :: rest, games =>
    let games2 := games ++ batch
    if 50 ≤ games2.length then games2 else accumulateMonths rest games2

/-- `get_last_50_games` (`game_analysis.py` lines 18-53) on the fetched
batches: accumulate, then `return games[-50:] if len(games) >= 50 else games`. -/
def get_last_50_games (batches : List (List RawGame)) : List RawGame :=
  let games := accumulateMonths batches []
  if 50 ≤ games.length then pyLastN 50 games else games

end GameAnalysis

namespace ChessAnalytics

/-!  Embedding of `src/chess_analytics.py`. -/

/-- The tally of `analyze_game_performance` (`chess_analytics.py` lines
157-177): per game, match the username case-insensitively; a game matching
neither side is skipped (`continue`); `"win"` counts a win, the four loss
tokens a loss, and **everything else counts a draw**. -/
def analyze_game_performance (games_data : List RawGame) (username : String) :
    Nat × Nat × Nat :=
  games_data.foldl
    (fun acc game =>
      let white_player := pyLower game.white.username
      let black_player := pyLower game.black.username
      if pyLower username == white_player then
        step acc ((game.white.result).getD "")
      else if pyLower username == black_player then
        step acc ((game.black.result).getD "")
      else acc)
    (0, 0, 0)
where
  step (acc : Nat × Nat × Nat) (result : String) : Nat × Nat × Nat :=
    if result == "win" then (acc.1 + 1, acc.2.1, acc.2.2)
    else if result == "checkmated" || result == "resigned" ||
            result == "timeout" || result == "abandoned" then
      (acc.1, acc.2.1 + 1, acc.2.2)
    else (acc.1, acc.2.1, acc.2.2 + 1)

end ChessAnalytics

namespace Advanced

/-!  Embedding of `src/advanced_game_analysis.py`; the bodies of
`classify_opening`, `extract_opening_moves` and `analyze_game` are textually
identical in `src/advanced_game_analysis_fixed.py`, so this embedding covers
both files. -/

/-- `classify_opening(moves_str)` (`advanced_game_analysis.py` lines 535-577):
lower-case the prefix, then walk the fixed if/elif decision list, first
match winning. -/
def classify_opening (moves_str : String) : String :=
  let ml := pyLowerCs moves_str.data
  if containsSub ("e4 e5".data) ml then
    if containsSub ("nf3 nc6".data) ml then "Italian Game / Spanish Opening"
    else if containsSub ("bc4".data) ml then "Italian Game"
    else if containsSub ("bb5".data) ml then "Spanish Opening (Ruy Lopez)"
    else "King's Pawn Game"
  else if containsSub ("e4 c5".data) ml then "Sicilian Defense"
  else if containsSub ("e4 e6".data) ml then "French Defense"
  else if containsSub ("e4 c6".data) ml then "Caro-Kann Defense"
  else if containsSub ("d4 d5".data) ml then "Queen's Pawn Game"
  else if containsSub ("d4 nf6".data) ml then
    if containsSub ("c4".data) ml then "English Opening / Queen's Indian"
    else "Indian Defense"
  else if containsSub ("nf3".data) ml && ("1. nf3".data).isPrefixOf ml then
    "Reti Opening"
  else if containsSub ("c4".data) ml && ("1. c4".data).isPrefixOf ml then
    "English Opening"
  else if containsSub ("f4".data) ml && ("1. f4".data).isPrefixOf ml then
    "Bird's Opening"
  else "Other Opening"

/-- The header-skipping loop of `extract_opening_moves` (lines 492-500):
once a non-empty line not starting with `[` is seen, every subsequent line
(including blank ones) is collected verbatim. -/
def collectMoveLines (lines : List (List Char)) : List (List Char) :=
  (lines.foldl
    (fun (st : Bool × List (List Char)) line =>
      let started :=
        if !(pyStrip line).isEmpty && line.head? != some '[' then true else st.1
      (started, if started then st.2 ++ [line] else st.2))
    (false, [])).2

/-- `re.sub(r'\{[^}]*\}', '', s)` (line 505): each `\x7b` that has a later
`\x7d` is removed together with everything up to (and including) the first
such `\x7d`; an unclosed `\x7b` is kept.  Fuel-driven scan; the fuel
`length + 1` strictly dominates the number of steps, each of which consumes
at least one character. -/
def removeBracesGo : Nat → List Char → List Char
  | 0, cs => cs
  | _ + 1, [] => []
  | fuel + 1, c :: cs =>
    if c == '\x7b' then
      let inner := cs.span (fun d => !(d == '\x7d'))
      match inner.2 with
      | _ :: rr => removeBracesGo fuel rr
      | [] => c :: removeBracesGo fuel cs
    else c :: removeBracesGo fuel cs

def removeBraces (cs : List Char) : List Char :=
  removeBracesGo (cs.length + 1) cs

/-- One attempted match of `%clk \d+:\d+:\d+` at the head of the list
(line 506); returns the remainder after the match. -/
def matchClk (cs : List Char) : Option (List Char) :=
  match cs with
  | '%' :: 'c' :: 'l' :: 'k' :: ' ' :: r =>
    let p1 := r.span isDigitCh
    if p1.1.isEmpty then none else
    match p1.2 with
    | ':' :: r2 =>
      let p2 := r2.span isDigitCh
      if p2.1.isEmpty then none else
      match p2.2 with
      | ':' :: r4 =>
        let p3 := r4.span isDigitCh
        if p3.1.isEmpty then none else some p3.2
      | _ => none
    | _ => none
  | _ => none

/-- `re.sub(r'%clk \d+:\d+:\d+', '', s)`: scan left to right, deleting each
match and copying every other character. -/
def removeClkGo : Nat → List Char → List Char
  | 0, cs => cs
  | _ + 1, [] => []
  | fuel + 1, c :: cs =>
    match matchClk (c :: cs) with
    | some rest => removeClkGo fuel rest
    | none => c :: removeClkGo fuel cs

def removeClk (cs : List Char) : List Char :=
  removeClkGo (cs.length + 1) cs

/-- `re.sub(r'\s+', ' ', s)` (line 507): collapse every whitespace run to a
single space. -/
def collapseWsGo : Nat → List Char → List Char
  | 0, cs => cs
  | _ + 1, [] => []
  | fuel + 1, c :: cs =>
    if isPySpace c then ' ' :: collapseWsGo fuel (cs.dropWhile isPySpace)
    else c :: collapseWsGo fuel cs

def collapseWs (cs : List Char) : List Char :=
  collapseWsGo (cs.length + 1) cs

/-- One attempted match of the numbered-move pattern
`(\d+\.)\s*(\S+)\s*(\S+)?` (line 510) at the head of the list: a maximal
digit run, a literal dot, optional whitespace, a maximal non-whitespace
token, optional whitespace, and an optional second token.  Returns the
captured groups (group 1 keeps the dot) and the remainder the scan resumes
from. -/
def matchMovePattern (cs : List Char) :
    Option ((List Char × List Char × Option (List Char)) × List Char) :=
  let pd := cs.span isDigitCh
  if pd.1.isEmpty then none else
  match pd.2 with
  | '.' :: r2 =>
    let r3 := r2.dropWhile isPySpace
    let pw := r3.span (fun c => !(isPySpace c))
    if pw.1.isEmpty then none else
    let r5 := pw.2.dropWhile isPySpace
    let pb := r5.span (fun c => !(isPySpace c))
    if pb.1.isEmpty then some ((pd.1 ++ ['.'], pw.1, none), r5)
    else some ((pd.1 ++ ['.'], pw.1, some pb.1), pb.2)
  | _ => none

/-- `re.findall` with the numbered-move pattern: attempt a match at every
position, left to right and non-overlapping.  Each successful match consumes
at least two characters, so fuel `length + 1` never runs out. -/
def findallMovesGo : Nat → List Char → List (List Char × List Char × Option (List Char))
  | 0, _ => []
  | _ + 1, [] => []
  | fuel + 1, c :: cs =>
    match matchMovePattern (c :: cs) with
    | some (g, rest) => g :: findallMovesGo fuel rest
    | none => findallMovesGo fuel cs

def findallMoves (cs : List Char) : List (List Char × List Char × Option (List Char)) :=
  findallMovesGo (cs.length + 1) cs

/-- The cleaned `moves_text` of `extract_opening_moves` (lines 492-507):
collect the move lines, join with spaces, strip comment spans and clock
annotations, collapse whitespace. -/
def cleanedMovesText (pgn : List Char) : List Char :=
  collapseWs (removeClk (removeBraces
    (List.intercalate [' '] (collectMoveLines (pgn.splitOn '\n')))))

/-- The formatting loop of `extract_opening_moves` (lines 517-524): for each
of the first three matches append `f"{move_num} {white_move}"` and, when
present, the black move; join everything with single spaces. -/
def formatFirstMoves (ms : List (List Char × List Char × Option (List Char))) :
    List Char :=
  List.intercalate [' ']
    ((ms.take 3).foldl
      (fun acc m =>
        if m.2.1.isEmpty then acc
        else
          let withWhite := acc ++ [m.1 ++ ' ' :: m.2.1]
          match m.2.2 with
          | some b => if b.isEmpty then withWhite else withWhite ++ [b]
          | none => withWhite)
      [])

/-- `extract_opening_moves(pgn)` (lines 477-532).  The Python `except`
branch is unreachable for string inputs (the body performs only total string
operations), so the function is the straight-line pipeline. -/
def extract_opening_moves (pgn : List Char) : List Char × List Char :=
  if pgn.isEmpty then ("N/A".data, "Unknown".data) else
  let ms := findallMoves (cleanedMovesText pgn)
  if ms.isEmpty then ("N/A".data, "Unknown".data)
  else
    let s := formatFirstMoves ms
    (s, (classify_opening ⟨s⟩).data)

/-- String-level wrapper of `extract_opening_moves`. -/
def extract_opening_movesS (pgn : String) : String × String :=
  let p := extract_opening_moves pgn.data
  (⟨p.1⟩, ⟨p.2⟩)

end Advanced

namespace Advanced

/-- The analysed-game record returned by `analyze_game`
(`advanced_game_analysis.py` lines 655-674).  The formatted `date` string
and the two PGN-header accuracy fields are presentation details not touched
by any claim and are omitted. -/
structure Analysis where
  game_id : String
  end_time : Option Int
  player_color : String
  player_rating : Option Int
  opponent_username : String
  opponent_rating : Option Int
  result : String
  termination : String
  time_control : String
  rated : Bool
  rules : String
  opening_moves : String
  opening_name : String
  pgn : String
  url : String
deriving DecidableEq

/-- The loss-token list of `analyze_game` (lines 611 and 618). -/
def lossTokens : List String :=
  ["checkmated", "timeout", "resigned", "abandoned"]

/-- `analyze_game(game, username)` (`advanced_game_analysis.py` lines
580-674).  A username that does not match White is treated as Black (the
bare `else` on line 600); the subject-relative result is derived from
**White's** result token and flipped by colour, with every token outside
the win/loss lists becoming `"draw"` (lines 606-621); `termination` is
always White's token (line 664). -/
def analyze_game (game : RawGame) (username : String) : Analysis :=
  let white_player := pyLower game.white.username
  let black_player := pyLower game.black.username
  let matchesWhite := pyLower username == white_player
  let player_color := if matchesWhite then "white" else "black"
  let sides :=
    if matchesWhite then (game.white.rating, black_player, game.black.rating)
    else (game.black.rating, white_player, game.white.rating)
  let player_rating := sides.1
  let opponent_username := sides.2.1
  let opponent_rating := sides.2.2
  let result := (game.white.result).getD "unknown"
  let player_result :=
    if player_color == "white" then
      if result == "win" then "win"
      else if lossTokens.contains result then "loss"
      else "draw"
    else
      if result == "win" then "loss"
      else if lossTokens.contains result then "win"
      else "draw"
  let pgn := (game.pgn).getD ""
  let opening := extract_opening_movesS pgn
  ⟨(game.uuid).getD "unknown",
    game.end_time,
    player_color,
    player_rating,
    opponent_username,
    opponent_rating,
    player_result,
    (game.white.result).getD "unknown",
    (game.time_control).getD "unknown",
    game.rated,
    (game.rules).getD "chess",
    opening.1,
    opening.2,
    pgn,
    (game.url).getD ""⟩

/-- The sort key of `get_recent_games` (line 469): `end_time` with default 0. -/
def endTimeKey (g : RawGame) : Int :=
  (g.end_time).getD 0

/-- Stable insertion into a list already sorted by `endTimeKey` descending:
the new element goes after every element with a key at least as large.
Python's `list.sort` is stable, and every stable sort produces the same
output, so inserting left to right reproduces
`games.sort(key=lambda x: x.get('end_time', 0), reverse=True)`. -/
def insertDescByEndTime (g : RawGame) : List RawGame → List RawGame
  | [] => [g]
  | h :: t =>
    if endTimeKey h < endTimeKey g then g :: h :: t
    else h :: insertDescByEndTime g t

/-- `games.sort(key=..., reverse=True)` (line 469): stable descending sort
by `end_time`. -/
def sortByEndTimeDesc (games : List RawGame) : List RawGame :=
  games.foldl (fun acc g => insertDescByEndTime g acc) []

/-- The merge/truncate tail of `get_recent_games` (lines 468-474): sort the
pooled games by `end_time` descending, then return the first `num_games`
when more are available, and everything otherwise. -/
def sortAndTruncate (num_games : Nat) (games : List RawGame) : List RawGame :=
  let sorted := sortByEndTimeDesc games
  if num_games < sorted.length then sorted.take num_games else sorted

/-- Seconds → microseconds: a `datetime.fromtimestamp` instant on the
microsecond timeline. -/
def micro (sec : Int) : Int :=
  sec * 1000000

/-- The end-of-day default bound built in `main` (line 917):
`datetime.combine(end_date.date(), datetime.max.time())`, i.e. 23:59:59.999999
of the day starting at epoch-second `daySec`. -/
def endOfDayDefault (daySec : Int) : Int :=
  micro daySec + 86399999999

/-- The date filter of `get_recent_games` (lines 427-438): a game is dropped
when `game_date < start_date` or `game_date > end_date` (each bound only
when supplied) and kept otherwise; `end_time` defaults to 0.  Bounds and
game instants are microseconds. -/
def dateFilterKeep (start_date end_date : Option Int) (game : RawGame) : Bool :=
  let game_date := micro ((game.end_time).getD 0)
  let skipStart : Bool :=
    match start_date with
    | some sd => decide (game_date < sd)
    | none => false
  let skipEnd : Bool :=
    match end_date with
    | some ed => decide (ed < game_date)
    | none => false
  !skipStart && !skipEnd

/-- The rating series of `analyze_user_games` (line 767):
`[game['player_rating'] for game in analyzed_games if game['player_rating']]`
— Python truthiness drops both missing ratings and a rating of 0. -/
def ratingsList (analyzed : List Analysis) : List Int :=
  analyzed.filterMap
    (fun game =>
      match game.player_rating with
      | some r => if r == 0 then none else some r
      | none => none)

/-- `current_rating = ratings[-1]` (line 769, commented `# Most recent game`);
`none` models the `"N/A"` fallback of the empty-series branch. -/
def currentRating (analyzed : List Analysis) : Option Int :=
  (ratingsList analyzed).getLast?

/-- `highest_rating = max(ratings)` (line 770). -/
def highestRating (analyzed : List Analysis) : Option Int :=
  (ratingsList analyzed).max?

/-- `lowest_rating = min(ratings)` (line 771). -/
def lowestRating (analyzed : List Analysis) : Option Int :=
  (ratingsList analyzed).min?

/-- The per-result counters of `analyze_user_games` (lines 760-762):
`sum(1 for game in analyzed_games if game['result'] == r)`. -/
def countResults (analyzed : List Analysis) (r : String) : Nat :=
  (analyzed.filter (fun a => a.result == r)).length

end Advanced

namespace GameAnalysis

/-- The header-skipping loop of `extract_first_three_moves`
(`game_analysis.py` lines 74-82), entered only when `"[White "` occurs in
the blob: once a non-empty line not starting with `[` is seen, every
subsequent line with non-empty `strip()` is collected **stripped**. -/
def collectMoveLines (lines : List (List Char)) : List (List Char) :=
  (lines.foldl
    (fun (st : Bool × List (List Char)) line =>
      let started :=
        if !(pyStrip line).isEmpty && line.head? != some '[' then true else st.1
      (started,
        if started && !(pyStrip line).isEmpty then st.2 ++ [pyStrip line] else st.2))
    (false, [])).2

/-- One attempted match of `(\d+)\.\s*([^\s]+)(?:\s+([^\s]+))?`
(`game_analysis.py` line 86) at the head of the list: a maximal digit run,
a literal dot, optional whitespace, a maximal non-whitespace token, and an
optional group requiring at least one whitespace before a second token.
When the optional group fails the match ends right after the first token. -/
def matchMovePattern (cs : List Char) :
    Option ((List Char × List Char × Option (List Char)) × List Char) :=
  let pd := cs.span isDigitCh
  if pd.1.isEmpty then none else
  match pd.2 with
  | '.' :: r2 =>
    let r3 := r2.dropWhile isPySpace
    let pw := r3.span (fun c => !(isPySpace c))
    if pw.1.isEmpty then none else
    let ps := pw.2.span isPySpace
    if ps.1.isEmpty then some ((pd.1, pw.1, none), pw.2)
    else
      let pb := ps.2.span (fun c => !(isPySpace c))
      if pb.1.isEmpty then some ((pd.1, pw.1, none), pw.2)
      else some ((pd.1, pw.1, some pb.1), pb.2)
  | _ => none

/-- `re.findall` with the numbered-move pattern of `game_analysis.py`:
left-to-right non-overlapping scan. -/
def findallMovesGo : Nat → List Char → List (List Char × List Char × Option (List Char))
  | 0, _ => []
  | _ + 1, [] => []
  | fuel + 1, c :: cs =>
    match matchMovePattern (c :: cs) with
    | some (g, rest) => g :: findallMovesGo fuel rest
    | none => findallMovesGo fuel cs

def findallMoves (cs : List Char) : List (List Char × List Char × Option (List Char)) :=
  findallMovesGo (cs.length + 1) cs

/-- Piece letters `[NBRQK]` of the fallback pattern (line 101). -/
def isPieceCh (c : Char) : Bool :=
  c == 'N' || c == 'B' || c == 'R' || c == 'Q' || c == 'K'

/-- File letters `[a-h]`. -/
def isFileCh (c : Char) : Bool :=
  'a' ≤ c && c ≤ 'h'

/-- Rank digits `[1-8]`. -/
def isRankCh (c : Char) : Bool :=
  '1' ≤ c && c ≤ '8'

/-- The remainders an optional single-character class `X?` leaves, in the
order a backtracking engine tries them: consume the character first when it
matches, then fall back to consuming nothing. -/
def optTake (p : Char → Bool) (cs : List Char) : List (List Char) :=
  match cs with
  | c :: rest => if p c then [rest, cs] else [cs]
  | [] => [[]]

/-- The mandatory tail `[a-h][1-8](?:=[NBRQ])?[+#]?` of the first fallback
alternative: destination square, optional promotion, optional check/mate
glyph (both greedy, nothing after them can force backtracking). -/
def matchDest (cs : List Char) : Option (List Char) :=
  match cs with
  | f :: r :: rest =>
    if isFileCh f && isRankCh r then
      let rest2 :=
        match rest with
        | '=' :: p :: rr =>
          if p == 'N' || p == 'B' || p == 'R' || p == 'Q' then rr else rest
        | _ => rest
      let rest3 :=
        match rest2 with
        | c :: rr => if c == '+' || c == '#' then rr else rest2
        | [] => rest2
      some rest3
    else none
  | _ => none

/-- First fallback alternative `[NBRQK]?[a-h]?[1-8]?x?[a-h][1-8](?:=[NBRQ])?[+#]?`
(line 101): enumerate the four optional prefixes in the engine's
backtracking order (most recent choice point varies fastest, i.e.
lexicographically with take-before-skip) and return the remainder of the
first combination whose mandatory tail matches. -/
def matchMoveAlt (cs : List Char) : Option (List Char) :=
  let cands :=
    (optTake isPieceCh cs).flatMap (fun r1 =>
      (optTake isFileCh r1).flatMap (fun r2 =>
        (optTake isRankCh r2).flatMap (fun r3 =>
          optTake (fun c => c == 'x') r3)))
  cands.findSome? matchDest

/-- Second fallback alternative `O-O(?:-O)?[+#]?` (line 101). -/
def matchCastle (cs : List Char) : Option (List Char) :=
  match cs with
  | 'O' :: '-' :: 'O' :: rest =>
    let rest2 :=
      match rest with
      | '-' :: 'O' :: rr => rr
      | _ => rest
    let rest3 :=
      match rest2 with
      | c :: rr => if c == '+' || c == '#' then rr else rest2
      | [] => rest2
    some rest3
  | _ => none

/-- `re.findall` with the fallback pattern: both alternatives open with a
word boundary `\b` and every character either alternative can consume first
is a word character, so a match can only start where the previous character
is absent or not a word character; alternatives are tried left to right.
The scanner threads the character preceding the current position to decide
the boundary. -/
def findallChessGo : Nat → Option Char → List Char → List (List Char)
  | 0, _, _ => []
  | _ + 1, _, [] => []
  | fuel + 1, prev, c :: rest =>
    let cs := c :: rest
    let boundary :=
      isWordCh c &&
        (match prev with
         | none => true
         | some p => !(isWordCh p))
    let attempt : Option (List Char) :=
      if boundary then
        match matchMoveAlt cs with
        | some rem => some rem
        | none => matchCastle cs
      else none
    match attempt with
    | some rem =>
      let taken := cs.take (cs.length - rem.length)
      taken :: findallChessGo fuel taken.getLast? rem
    | none => findallChessGo fuel (some c) rest

def findallChess (cs : List Char) : List (List Char) :=
  findallChessGo (cs.length + 1) none cs

/-- The formatting loop of `extract_first_three_moves` (lines 90-98): for
the first three matches build `f"{move_num}.{white_move}"`, append the black
move when present and not starting with `\x7b`, and join with spaces. -/
def formatFirstThree (ms : List (List Char × List Char × Option (List Char))) :
    List Char :=
  List.intercalate [' ']
    ((ms.take 3).foldl
      (fun acc m =>
        if m.2.1.isEmpty then acc
        else
          let base := m.1 ++ '.' :: m.2.1
          match m.2.2 with
          | some b =>
            if !b.isEmpty && b.head? != some '\x7b' then acc ++ [base ++ ' ' :: b]
            else acc ++ [base]
          | none => acc ++ [base])
      [])

/-- The `moves_section` local of `extract_first_three_moves` (lines 71-82):
when `"[White "` occurs in the blob, the stripped non-header lines joined by
spaces; otherwise the blob itself. -/
def movesSection (pgn : List Char) : List Char :=
  if containsSub ("[White ".data) pgn then
    List.intercalate [' '] (collectMoveLines (pgn.splitOn '\n'))
  else pgn

/-- `extract_first_three_moves(pgn)` (`game_analysis.py` lines 56-108).
The `except` branch is unreachable for string inputs (the body performs
only total string operations).  An empty blob yields `"N/A"`; when the
numbered pattern finds nothing in the moves section the fallback pattern is
tried and its first six matches joined; `"N/A"` is returned only when both
find nothing. -/
def extract_first_three_moves (pgn : List Char) : List Char :=
  if pgn.isEmpty then "N/A".data else
  let ms := findallMoves (movesSection pgn)
  if !ms.isEmpty then formatFirstThree ms
  else
    let chess_moves := findallChess (movesSection pgn)
    if !chess_moves.isEmpty then List.intercalate [' '] (chess_moves.take 6)
    else "N/A".data

/-- String-level wrapper of `extract_first_three_moves`. -/
def extract_first_three_movesS (pgn : String) : String :=
  ⟨extract_first_three_moves pgn.data⟩

end GameAnalysis

/-! ## Concrete game records used by the claim theorems -/

/-- A game whose two sides carry different result tokens: Black's own token
is `"win"` while White's is `"stalemate"`. -/
def gC1 : RawGame :=
  mkGame ⟨"alice", some 1500, some "stalemate"⟩ ⟨"bob", some 1450, some "win"⟩ (some 100)

/-- A game whose subject-side token `"timevsinsufficient"` (a real Chess.com
draw token) is outside every list of the classification table. -/
def gC2 : RawGame :=
  mkGame ⟨"alice", some 1500, some "timevsinsufficient"⟩
    ⟨"bob", some 1450, some "timevsinsufficient"⟩ (some 100)

/-- Same shape as `gC2`, used for the aggregate-total claim. -/
def gC3 : RawGame :=
  mkGame ⟨"alice", some 1500, some "timevsinsufficient"⟩
    ⟨"bob", some 1450, some "timevsinsufficient"⟩ (some 100)

/-- Three games with end times 100, 110 and 50. -/
def gC4a : RawGame :=
  mkGame ⟨"alice", some 1500, some "win"⟩ ⟨"bob", some 1450, some "resigned"⟩ (some 100)

def gC4b : RawGame :=
  mkGame ⟨"alice", some 1510, some "win"⟩ ⟨"bob", some 1460, some "resigned"⟩ (some 110)

def gC4c : RawGame :=
  mkGame ⟨"alice", some 1490, some "win"⟩ ⟨"bob", some 1440, some "resigned"⟩ (some 50)

/-- A game between alice and bob, analysed for the uninvolved subject carol. -/
def gC5 : RawGame :=
  mkGame ⟨"alice", some 1500, some "win"⟩ ⟨"bob", some 1450, some "checkmated"⟩ (some 100)

/-- A game ending exactly at the 23:59:59 instant of day 0. -/
def gC8 : RawGame :=
  mkGame ⟨"alice", none, none⟩ ⟨"bob", none, none⟩ (some 86399)

/-- The newer of the two C9 games: rating 1500 at end time 200. -/
def gC9new : RawGame :=
  mkGame ⟨"alice", some 1500, some "win"⟩ ⟨"bob", some 1400, some "resigned"⟩ (some 200)

/-- The older of the two C9 games: rating 1400 at end time 100. -/
def gC9old : RawGame :=
  mkGame ⟨"alice", some 1400, some "win"⟩ ⟨"carol", some 1300, some "resigned"⟩ (some 100)

/-- A game where the subject plays Black: Black's token is `"win"`, White's
is `"resigned"`. -/
def gC10 : RawGame :=
  mkGame ⟨"alice", some 1500, some "resigned"⟩ ⟨"bob", some 1450, some "win"⟩ (some 100)

/-! ## Claim theorems -/

/-- C1: the claim says the canonical result is always derived from the
subject's own side's token and never by reading only White's token and
flipping it by colour.  `game_analysis.analyze_game_result` does read the
subject's own token (here Black's `"win"` gives `"Win"`), but
`advanced_game_analysis.analyze_game` (and its `_fixed` copy) reads only
White's token `"stalemate"` and flips it, producing `"draw"` for the same
subject — the code contradicts the stated rule. -/
theorem c1_advanced_result_from_white_token :
    gC1.black.result = some "win"
    ∧ (GameAnalysis.analyze_game_result gC1 "bob").1 = "Win"
    ∧ (Advanced.analyze_game gC1 "bob").player_color = "black"
    ∧ (Advanced.analyze_game gC1 "bob").result = "draw" := by
  decide

/-- C2: the claim says tokens outside the fixed table map to Unknown and
never to Draw.  `game_analysis`'s table does map `"timevsinsufficient"` to
`"Unknown"`, but the `else`-branches of `chess_analytics.analyze_game_performance`
and `advanced_game_analysis.analyze_game` count the same token as a draw. -/
theorem c2_unknown_token_counted_as_draw :
    GameAnalysis.classifyToken "timevsinsufficient" = "Unknown"
    ∧ ChessAnalytics.analyze_game_performance [gC2] "alice" = (0, 0, 1)
    ∧ (Advanced.analyze_game gC2 "alice").result = "draw" := by
  decide

/-- C3: the claim says `wins + losses + draws + |Unknown| = total` with
Unknown games still counting toward the total.  In `game_analysis.analyze_games`
the reported total is defined as `wins + losses + draws`, so a single
analysed game with an Unknown result gives total 0 and the invariant
`0 + 0 + 0 + 1 = total` fails. -/
theorem c3_total_excludes_unknown :
    GameAnalysis.analyze_games_results [gC3] "alice" = ["Unknown"]
    ∧ GameAnalysis.analyze_games_counts [gC3] "alice" = (0, 0, 0)
    ∧ GameAnalysis.analyze_games_total [gC3] "alice" = 0
    ∧ 0 + 0 + 0 + 1 ≠ GameAnalysis.analyze_games_total [gC3] "alice" := by
  decide

/-- C4: the claim says the merged result is sorted by `end_time` descending
and consists of the most recent games.  `advanced_game_analysis.get_recent_games`
does sort and truncate this way (`sortAndTruncate`), but
`game_analysis.get_last_50_games` merely concatenates the monthly batches
(most recent month first) and takes `games[-50:]`: on batches
`[[t=100, t=110], [t=50]]` it returns the pool in order `[100, 110, 50]`,
which is not the descending order `[110, 100, 50]`. -/
theorem c4_get_last_50_games_unsorted :
    GameAnalysis.get_last_50_games [[gC4a, gC4b], [gC4c]] = [gC4a, gC4b, gC4c]
    ∧ Advanced.sortAndTruncate 50 [gC4a, gC4b, gC4c] = [gC4b, gC4a, gC4c]
    ∧ GameAnalysis.get_last_50_games [[gC4a, gC4b], [gC4c]]
        ≠ Advanced.sortAndTruncate 50 [gC4a, gC4b, gC4c] := by
  decide

/-- C5: the claim says a game in which the subject matches neither side is
dropped and contributes to no tally.  `chess_analytics.analyze_game_performance`
does skip such a game, but `advanced_game_analysis.analyze_game` treats the
unmatched subject as Black and produces a counted result (here a loss
derived from White's `"win"`). -/
theorem c5_unmatched_subject_not_dropped :
    pyLower "carol" ≠ pyLower gC5.white.username
    ∧ pyLower "carol" ≠ pyLower gC5.black.username
    ∧ (Advanced.analyze_game gC5 "carol").player_color = "black"
    ∧ (Advanced.analyze_game gC5 "carol").result = "loss"
    ∧ Advanced.countResults [Advanced.analyze_game gC5 "carol"] "loss" = 1
    ∧ ChessAnalytics.analyze_game_performance [gC5] "carol" = (0, 0, 0) := by
  decide

/-- C6 counterexample: the claim says a blob with no numbered moves yields
the prefix `"N/A"`, but on `"e4 e5"` — where the numbered-move pattern finds
nothing — `game_analysis.extract_first_three_moves` returns the fallback
bare-move tokens `"e4 e5"`, not `"N/A"`. -/
theorem c6_counterexample_fallback_output :
    GameAnalysis.findallMoves ("e4 e5".data) = []
    ∧ GameAnalysis.extract_first_three_movesS "e4 e5" = "e4 e5"
    ∧ GameAnalysis.extract_first_three_movesS "e4 e5" ≠ "N/A" := by
  decide

/-- C6 (amended): neither parser can raise (both are total functions of the
blob); an empty blob yields `"N/A"` from both, with label `"Unknown"` from
`extract_opening_moves`; for every non-empty blob whose cleaned text
contains no numbered move, `advanced_game_analysis.extract_opening_moves`
yields `("N/A", "Unknown")`, while for every non-empty blob whose
header-stripped moves section contains no numbered move,
`game_analysis.extract_first_three_moves` falls back to the bare chess-move
pattern on that moves section, returning its first six matches joined by
spaces when there are any and `"N/A"` only when there are none. -/
theorem c6_amended_sentinel_behavior :
    GameAnalysis.extract_first_three_movesS "" = "N/A"
    ∧ Advanced.extract_opening_movesS "" = ("N/A", "Unknown")
    ∧ (∀ pgn : String, pgn.data ≠ [] →
        Advanced.findallMoves (Advanced.cleanedMovesText pgn.data) = [] →
        Advanced.extract_opening_movesS pgn = ("N/A", "Unknown"))
    ∧ (∀ pgn : String, pgn.data ≠ [] →
        GameAnalysis.findallMoves (GameAnalysis.movesSection pgn.data) = [] →
        GameAnalysis.findallChess (GameAnalysis.movesSection pgn.data) = [] →
        GameAnalysis.extract_first_three_movesS pgn = "N/A")
    ∧ (∀ pgn : String, pgn.data ≠ [] →
        GameAnalysis.findallMoves (GameAnalysis.movesSection pgn.data) = [] →
        GameAnalysis.findallChess (GameAnalysis.movesSection pgn.data) ≠ [] →
        GameAnalysis.extract_first_three_movesS pgn =
          ⟨List.intercalate [' ']
            ((GameAnalysis.findallChess (GameAnalysis.movesSection pgn.data)).take 6)⟩) := by
  refine ⟨by decide, by decide, ?_, ?_, ?_⟩
  · intro pgn h1 h2
    simp [Advanced.extract_opening_movesS, Advanced.extract_opening_moves, h1, h2]
  · intro pgn h1 h2 h3
    simp [GameAnalysis.extract_first_three_movesS, GameAnalysis.extract_first_three_moves,
      h1, h2, h3]
  · intro pgn h1 h2 h3
    simp [GameAnalysis.extract_first_three_movesS, GameAnalysis.extract_first_three_moves,
      h1, h2, h3]

/-- C6 witness for the amended claim: `"xyz"` is non-empty (its moves
section is the blob itself) and neither pattern matches, so the result is
`"N/A"`. -/
theorem c6_amended_sentinel_witness :
    GameAnalysis.extract_first_three_movesS "xyz" = "N/A" :=
  c6_amended_sentinel_behavior.2.2.2.1 "xyz" (by decide) (by decide) (by decide)

/-- C7: `classify_opening` follows the fixed ordered decision list with
first match winning, case-insensitively: every prefix containing both
`"e4 e5"` and `"nf3 nc6"` (after lower-casing) is labelled
`"Italian Game / Spanish Opening"`; the exact prefix `"1. c4"` is labelled
`"English Opening"`; a prefix matching no rule is labelled
`"Other Opening"`. -/
theorem c7_classify_opening_decision_list :
    (∀ s : String, containsSub ("e4 e5".data) (pyLowerCs s.data) = true →
        containsSub ("nf3 nc6".data) (pyLowerCs s.data) = true →
        Advanced.classify_opening s = "Italian Game / Spanish Opening")
    ∧ Advanced.classify_opening "1. c4" = "English Opening"
    ∧ Advanced.classify_opening "1. h4 h5" = "Other Opening" := by
  refine ⟨?_, by decide, by decide⟩
  intro s h1 h2
  simp [Advanced.classify_opening, h1, h2]

/-- C7 witness: the scenario prefix `"1. e4 e5 2. Nf3 Nc6"` (mixed case)
satisfies both substring conditions and gets the Italian/Spanish label. -/
theorem c7_classify_opening_decision_witness :
    Advanced.classify_opening "1. e4 e5 2. Nf3 Nc6" = "Italian Game / Spanish Opening" :=
  c7_classify_opening_decision_list.1 "1. e4 e5 2. Nf3 Nc6" (by decide) (by decide)

/-- C8: with a start bound at the midnight instant of epoch-second
`startSec` and an end bound defaulted to 23:59:59.999999 of the day starting
at epoch-second `daySec` (the `datetime.max.time()` default of `main`), a
game at whole-second `end_time = t` is kept by the filter of
`get_recent_games` iff `startSec ≤ t ∧ t ≤ daySec + 86399` — both bounds
inclusive, and the defaulted end bound is exactly the 23:59:59 end-of-day
instant at the data's one-second resolution. -/
theorem c8_date_filter_inclusive :
    ∀ (startSec daySec t : Int) (g : RawGame), g.end_time = some t →
      (Advanced.dateFilterKeep (some (Advanced.micro startSec))
          (some (Advanced.endOfDayDefault daySec)) g = true
        ↔ (startSec ≤ t ∧ t ≤ daySec + 86399)) := by
  intro s d t g hg
  simp [Advanced.dateFilterKeep, Advanced.micro, Advanced.endOfDayDefault, hg]
  omega

/-- C8 witness: a game ending exactly at the 23:59:59 end-of-day instant of
day 0, filtered with `start = 0`, is included. -/
theorem c8_date_filter_inclusive_witness :
    Advanced.dateFilterKeep (some (Advanced.micro 0))
      (some (Advanced.endOfDayDefault 0)) gC8 = true :=
  (c8_date_filter_inclusive 0 0 86399 gC8 rfl).mpr (by decide)

/-- C9: the claim says the rating series is chronological ascending and
`current` is the most recent game's rating.  `get_recent_games` sorts the
games most-recent-**first**, `analyze_user_games` collects ratings in that
descending order, and `current_rating = ratings[-1]` (commented
`# Most recent game`) therefore picks the **oldest** rated game: here the
series is `[1500, 1400]` and current becomes 1400 although the most recent
game's rating is 1500. -/
theorem c9_current_rating_is_oldest :
    Advanced.sortAndTruncate 50 [gC9old, gC9new] = [gC9new, gC9old]
    ∧ Advanced.ratingsList
        ((Advanced.sortAndTruncate 50 [gC9old, gC9new]).map
          (fun g => Advanced.analyze_game g "alice")) = [1500, 1400]
    ∧ Advanced.currentRating
        ((Advanced.sortAndTruncate 50 [gC9old, gC9new]).map
          (fun g => Advanced.analyze_game g "alice")) = some 1400
    ∧ (((Advanced.sortAndTruncate 50 [gC9old, gC9new]).map
          (fun g => Advanced.analyze_game g "alice")).head?).map
        Advanced.Analysis.player_rating = some (some 1500) := by
  decide

/-- C10: the `termination` field stored by `analyze_game` is always White's
result token (default `"unknown"`), whatever side the subject plays; for
the Black subject of `gC10` the stored termination is the opponent's
`"resigned"`, not the subject's own `"win"`. -/
theorem c10_termination_is_white_token :
    (∀ (g : RawGame) (u : String),
        (Advanced.analyze_game g u).termination = (g.white.result).getD "unknown")
    ∧ (Advanced.analyze_game gC10 "bob").player_color = "black"
    ∧ (Advanced.analyze_game gC10 "bob").termination = "resigned"
    ∧ gC10.black.result = some "win" := by
  refine ⟨fun g u => rfl, by decide, by decide, by decide⟩
